import Mathlib

/-!
Verification of the rtingsExtractor pipeline.

The repository holds two near-duplicate Python scripts,
`(manual)rtingsParser_autoEq.py` and `autoExtractor.py`.  Both parse an
HTML document, extract (frequency, target, measured) rows from the first
table, clean the cell text to numbers, sort by frequency, apply a clamped
target-minus-measured EQ correction, and write the result to a file.

This file shallowly embeds the two scripts.  Numeric cell values, exact in
the source's real-number idealization, are modelled as rationals (every
value reaching the pipeline is a finite decimal).  A parsed HTML document
is modelled by the table/row/cell tree the scripts actually consume:
`soup.find("table")` is the head of the document's table list,
`table.find_all("tr")` its row list, `tr.find_all("td")` the cell texts.
File output is modelled as an `Option String`: `none` when the run aborts
before writing, `some s` when the run replaces the file content with `s`.
-/

namespace Rtings

/-- One `<tr>` element: the text of its `<td>` cells, in order
(`tr.find_all("td")` followed by `get_text()`). -/
structure Tr where
  td : List String

/-- One `<table>` element: its `<tr>` rows in document order
(`table.find_all("tr")`). -/
structure Table where
  tr : List Tr

/-- A parsed HTML document, reduced to what the scripts read:
its `<table>` elements in document order; `soup.find("table")`
is the head of this list. -/
structure Document where
  tables : List Table

/-- The two data-dependent failures of the extraction stage:
`print("No table found...")`-and-return, and
`print("No valid data...")`-and-return. -/
inductive ExtractError where
  | NoTableFound
  | NoValidData
deriving DecidableEq

/-- Characters kept by `re.sub(r"[^\d.-]", "", value)`:
decimal digits, the dot and the minus sign. -/
def keepChar (c : Char) : Bool := c.isDigit || c = '.' || c = '-'

/-- Numeric value of a string of decimal digit characters,
most significant first. -/
def digitsVal (l : List Char) : ℕ := l.foldl (fun a c => 10 * a + (c.toNat - 48)) 0

/-- Python's `float()` on an unsigned string made of digits and dots:
`"54"`, `"54."` and `".5"` parse; `""`, `"."`, `"1.2.3"` and any string
with a stray non-digit character fail.  The value `d1…dk.e1…em` is the
exact rational `d1…dke1…em / 10^m`. -/
def parseUnsignedFloat (s : List Char) : Option ℚ :=
  let intPart := s.takeWhile (fun c => c ≠ '.')
  match s.dropWhile (fun c => c ≠ '.') with
  | [] =>
    if intPart ≠ [] ∧ intPart.all Char.isDigit then
      some (mkRat (digitsVal intPart) 1)
    else none
  | '.' :: frac =>
    if (intPart ≠ [] ∨ frac ≠ []) ∧ intPart.all Char.isDigit ∧ frac.all Char.isDigit then
      some (mkRat (digitsVal (intPart ++ frac)) (10 ^ frac.length))
    else none
  | _ => none

/-- Python's `float()` on a string made of digits, dots and minus signs —
the only characters that survive `keepChar`.  A single leading `-`
negates; a `-` anywhere else makes parsing fail (`float("1-2")` raises
`ValueError`).  (`float()` also accepts a leading `+`, surrounding
whitespace and underscores between digits, but none of those characters
survive the regex filter, so they need no model here.) -/
def parsePyFloat (s : List Char) : Option ℚ :=
  match s with
  | '-' :: rest => (parseUnsignedFloat rest).map (fun q => -q)
  | _ => parseUnsignedFloat s

/-- Ordering of extracted rows used by `rows.sort(key=lambda x: x[0])`:
compare first components (frequencies). -/
def freqLE (a b : ℚ × ℚ × ℚ) : Prop := a.1 ≤ b.1

instance : DecidableRel freqLE := fun a b => inferInstanceAs (Decidable (a.1 ≤ b.1))

instance : IsTotal (ℚ × ℚ × ℚ) freqLE := ⟨fun a b => le_total a.1 b.1⟩

instance : IsTrans (ℚ × ℚ × ℚ) freqLE := ⟨fun _ _ _ hab hbc => le_trans hab hbc⟩

/-- `rows.sort(key=lambda x: x[0])`: stable ascending sort by frequency.
Any stable sort computes the same list as Python's timsort. -/
def sortRows (rows : List (ℚ × ℚ × ℚ)) : List (ℚ × ℚ × ℚ) :=
  List.insertionSort freqLE rows

namespace Manual

/-- `clean_number` of `(manual)rtingsParser_autoEq.py`.  Cell text is
always a string (`get_text()`), so the `isinstance(value, (int, float))`
branch never fires and is not modelled.  `not value or value.strip() == ""`
holds exactly when every character is whitespace; otherwise the regex
keeps digits, dots and minus signs and `float()` parses the remainder,
with `None` on `ValueError`. -/
def clean_number (value : String) : Option ℚ :=
  if value.data.all Char.isWhitespace then none
  else parsePyFloat (value.data.filter keepChar)

/-- `scale_gain`: `max(-32, min(32, gain))`. -/
def scale_gain (gain : ℚ) : ℚ := max (-32) (min 32 gain)

/-- `apply_eq_correction`: the loop appending
`(f, scale_gain(target - avg_response))` for each input triple. -/
def apply_eq_correction : List (ℚ × ℚ × ℚ) → List (ℚ × ℚ)
  | [] => []
  | (f, target, avg_response) :: rest =>
      (f, scale_gain (target - avg_response)) :: apply_eq_correction rest

/-- The body of the row loop of `extract_and_clean_rtings_data`: a row
contributes a triple exactly when it has at least four cells and cells
0, 1 and 3 all clean to numbers (cell 2 is never read). -/
def rowParse (row : Tr) : Option (ℚ × ℚ × ℚ) :=
  if 4 ≤ row.td.length then
    match clean_number (row.td.getD 0 ""), clean_number (row.td.getD 1 ""),
        clean_number (row.td.getD 3 "") with
    | some freq, some target, some avg => some (freq, target, avg)
    | _, _, _ => none
  else none

/-- The `rows` list built by the loop over `table.find_all("tr")`. -/
def extractRows (t : Table) : List (ℚ × ℚ × ℚ) := t.tr.filterMap rowParse

/-- The data pipeline of `extract_and_clean_rtings_data` up to (and
including) EQ correction: find the first table (else `NoTableFound`),
extract rows (none valid: `NoValidData`), sort by frequency, correct. -/
def extract_and_clean (doc : Document) : Except ExtractError (List (ℚ × ℚ)) :=
  match doc.tables.head? with
  | none => Except.error ExtractError.NoTableFound
  | some table =>
    let rows := extractRows table
    if rows.isEmpty then Except.error ExtractError.NoValidData
    else Except.ok (apply_eq_correction (sortRows rows))

/-- Python `int()` applied to a (rational-valued) float:
truncation toward zero. -/
def pyInt (q : ℚ) : ℤ := Int.tdiv q.num (q.den : ℤ)

/-- `abs(g) * 100`, rounded to the nearest integer with ties to even:
the digit stream printed by fixed-point `f"{g:.2f}"` formatting
(idealized to the exact rational value). -/
def rne100mag (g : ℚ) : ℕ :=
  let n := 100 * g.num.natAbs
  let d := g.den
  let q := n / d
  let r2 := 2 * (n % d)
  if r2 < d then q else if d < r2 then q + 1 else if q % 2 = 0 then q else q + 1

/-- Two-digit zero-padded decimal rendering of a number below 100. -/
def pad2 (n : ℕ) : String := if n < 10 then "0" ++ toString n else toString n

/-- `f"{g:.2f}"`: fixed-point with exactly two decimals, a `-` sign
exactly when the value is negative. -/
def format2dp (g : ℚ) : String :=
  let m := rne100mag g
  (if g.num < 0 then "-" else "") ++ toString (m / 100) ++ "." ++ pad2 (m % 100)

/-- `f"{int(f)} {g:.2f}"` for one corrected point. -/
def formatPoint (p : ℚ × ℚ) : String := toString (pyInt p.1) ++ " " ++ format2dp p.2

/-- `save_graphic_eq_format`: the single line
`"GraphicEQ: " + "; ".join(...)` followed by the written `"\n"`. -/
def save_graphic_eq_format (eq_data : List (ℚ × ℚ)) : String :=
  "GraphicEQ: " ++ String.intercalate "; " (eq_data.map formatPoint) ++ "\n"

/-- Whole run of `extract_and_clean_rtings_data` as a file effect:
`none` when the pipeline aborts before the output file is opened,
`some s` when the file is written with content `s`. -/
def run (doc : Document) : Option String :=
  match extract_and_clean doc with
  | Except.error _ => none
  | Except.ok eq_data => some (save_graphic_eq_format eq_data)

end Manual

namespace Auto

/-- `clean_number` of `autoExtractor.py` (character-identical logic to the
manual script's). -/
def clean_number (value : String) : Option ℚ :=
  if value.data.all Char.isWhitespace then none
  else parsePyFloat (value.data.filter keepChar)

/-- `scale_gain` of `autoExtractor.py`: `max(-32, min(32, gain))`. -/
def scale_gain (gain : ℚ) : ℚ := max (-32) (min 32 gain)

/-- `apply_eq_correction` of `autoExtractor.py`. -/
def apply_eq_correction : List (ℚ × ℚ × ℚ) → List (ℚ × ℚ)
  | [] => []
  | (freq, target, avg_response) :: rest =>
      (freq, scale_gain (target - avg_response)) :: apply_eq_correction rest

/-- Row loop body of `extract_and_clean_rtings_data` in `autoExtractor.py`. -/
def rowParse (row : Tr) : Option (ℚ × ℚ × ℚ) :=
  if 4 ≤ row.td.length then
    match clean_number (row.td.getD 0 ""), clean_number (row.td.getD 1 ""),
        clean_number (row.td.getD 3 "") with
    | some freq, some target, some avg => some (freq, target, avg)
    | _, _, _ => none
  else none

/-- The `rows` list built by `autoExtractor.py`. -/
def extractRows (t : Table) : List (ℚ × ℚ × ℚ) := t.tr.filterMap rowParse

/-- The data pipeline of `autoExtractor.py` up to EQ correction.  (The
script's extra `os.path.exists` guard precedes parsing and so lies outside
the document-level model; its serializer writes one `"f g"` line per point
instead of the GraphicEQ line.) -/
def extract_and_clean (doc : Document) : Except ExtractError (List (ℚ × ℚ)) :=
  match doc.tables.head? with
  | none => Except.error ExtractError.NoTableFound
  | some table =>
    let rows := extractRows table
    if rows.isEmpty then Except.error ExtractError.NoValidData
    else Except.ok (apply_eq_correction (sortRows rows))

end Auto

end Rtings

namespace Rtings

/-! ## Helper lemmas -/

/-- Whitespace characters are removed by the cleaning regex. -/
theorem keepChar_eq_false_of_isWhitespace (c : Char) (h : c.isWhitespace = true) :
    keepChar c = false := by
  simp only [Char.isWhitespace, Bool.or_eq_true, decide_eq_true_eq] at h
  rcases h with ((h | h) | h) | h <;> subst h <;> decide

/-- `float()` fails on the empty string. -/
theorem parsePyFloat_nil : parsePyFloat [] = none := rfl

/-- `apply_eq_correction` is the pointwise map sending `(f, t, m)` to
`(f, scale_gain (t - m))`. -/
theorem Manual.apply_eq_correction_eq_map (l : List (ℚ × ℚ × ℚ)) :
    Manual.apply_eq_correction l =
      l.map (fun r => (r.1, Manual.scale_gain (r.2.1 - r.2.2))) := by
  induction l with
  | nil => rfl
  | cons a rest ih =>
    obtain ⟨f, tg, m⟩ := a
    simp [Manual.apply_eq_correction, ih]

/-- The row list the manual script extracts is the row list the auto
script extracts: the loops are character-identical. -/
theorem extractRows_eq (t : Table) : Manual.extractRows t = Auto.extractRows t := rfl

end Rtings

namespace Rtings

/-! ## Claim theorems -/

/-- C4: for every input string, `clean_number` strips every character that
is not a digit, `.` or `-` and parses the remainder as a float, returning
`none` when the input is empty or the cleaned text fails to parse; in
particular `clean_number "54" = 54`, `clean_number "" = none` and
`clean_number "26.81dB" = 26.81`. -/
theorem C4_clean_number_strips_and_parses :
    (∀ s : String, Manual.clean_number s = parsePyFloat (s.data.filter keepChar)) ∧
    Manual.clean_number "54" = some 54 ∧
    Manual.clean_number "" = none ∧
    Manual.clean_number "26.81dB" = some (26.81 : ℚ) := by
  refine ⟨?_, by decide, by decide, ?_⟩
  · intro s
    unfold Manual.clean_number
    split
    · next h =>
      have hfil : s.data.filter keepChar = [] := by
        rw [List.filter_eq_nil_iff]
        intro c hc
        simp only [List.all_eq_true] at h
        simp [keepChar_eq_false_of_isWhitespace c (h c hc)]
      rw [hfil, parsePyFloat_nil]
    · rfl
  · have h : Manual.clean_number "26.81dB" = some (mkRat 2681 100) := by decide
    rw [h, Rat.mkRat_eq_div]
    norm_num

/-- C7 counterexample: `clean_number "1-2"` does not return `-1`
(the cleaned text `"1-2"` fails float parsing, so the result is `None`). -/
theorem C7_counterexample : ¬ Manual.clean_number "1-2" = some (-1 : ℚ) := by decide

/-- C7 (amended): on the malformed cell text `"1-2"` the cleaning regex
keeps the interior `-` (it is not anchored to the front), but the
subsequent float parse rejects the cleaned text `"1-2"`, so `clean_number`
returns `none` rather than `-1`. -/
theorem C7_interior_minus_kept_then_rejected :
    "1-2".data.filter keepChar = "1-2".data ∧
    parsePyFloat ("1-2".data) = none ∧
    Manual.clean_number "1-2" = none := by
  refine ⟨by decide, by decide, by decide⟩

/-- C2: the serializer renders the ordered points as the literal text
`GraphicEQ: `, each point as the frequency truncated to an integer, a
space, and the gain with exactly two decimals, joined by `; `, ending in a
newline: `[(20, 5.5), (54, -3.2)]` gives exactly
`"GraphicEQ: 20 5.50; 54 -3.20\n"`, and a fractional frequency `20.9` is
truncated (not rounded) to `20`. -/
theorem C2_serializer_graphic_eq_line :
    Manual.save_graphic_eq_format [((20 : ℚ), (5.5 : ℚ)), ((54 : ℚ), (-3.2 : ℚ))] =
      "GraphicEQ: 20 5.50; 54 -3.20\n" ∧
    Manual.save_graphic_eq_format [((20.9 : ℚ), (5.5 : ℚ))] = "GraphicEQ: 20 5.50\n" := by
  have h1 : (5.5 : ℚ) = mkRat 11 2 := by rw [Rat.mkRat_eq_div]; norm_num
  have h2 : (-3.2 : ℚ) = mkRat (-16) 5 := by rw [Rat.mkRat_eq_div]; norm_num
  have h3 : (20.9 : ℚ) = mkRat 209 10 := by rw [Rat.mkRat_eq_div]; norm_num
  rw [h1, h2, h3]
  exact ⟨by decide, by decide⟩

/-- C10: the correction step returns a list of exactly the input's length,
in order, and the i-th output point carries the i-th input frequency
unchanged — only the gain component is computed. -/
theorem C10_correction_preserves_frequencies (data : List (ℚ × ℚ × ℚ)) :
    (Manual.apply_eq_correction data).length = data.length ∧
    (Manual.apply_eq_correction data).map Prod.fst = data.map (fun r => r.1) := by
  rw [Manual.apply_eq_correction_eq_map]
  constructor
  · exact List.length_map data _
  · rw [List.map_map]
    rfl

/-- C10 witness at a concrete input. -/
theorem C10_witness :
    (Manual.apply_eq_correction [((20 : ℚ), (40 : ℚ), (-10 : ℚ))]).length =
      [((20 : ℚ), (40 : ℚ), (-10 : ℚ))].length ∧
    (Manual.apply_eq_correction [((20 : ℚ), (40 : ℚ), (-10 : ℚ))]).map Prod.fst =
      [((20 : ℚ), (40 : ℚ), (-10 : ℚ))].map (fun r => r.1) :=
  C10_correction_preserves_frequencies [((20 : ℚ), (40 : ℚ), (-10 : ℚ))]

end Rtings

namespace Rtings

/-- C1: the Corrector is total (defined for every list of real-valued
triples, output length equals input length), each produced point's gain is
exactly `max (-32) (min 32 (target - measured))`, and hence every output
gain lies in `[-32, 32]`. -/
theorem C1_gain_exact_and_clamped (data : List (ℚ × ℚ × ℚ)) (i : ℕ)
    (h : i < data.length) :
    (Manual.apply_eq_correction data).length = data.length ∧
    (Manual.apply_eq_correction data).getD i (0, 0) =
      ((data.getD i (0, 0, 0)).1,
        max (-32) (min 32 ((data.getD i (0, 0, 0)).2.1 - (data.getD i (0, 0, 0)).2.2))) ∧
    -32 ≤ ((Manual.apply_eq_correction data).getD i (0, 0)).2 ∧
    ((Manual.apply_eq_correction data).getD i (0, 0)).2 ≤ 32 := by
  have hm := Manual.apply_eq_correction_eq_map data
  have hlen : (Manual.apply_eq_correction data).length = data.length := by
    rw [hm, List.length_map]
  have hi2 : i < (Manual.apply_eq_correction data).length := by rw [hlen]; exact h
  have hgd : (Manual.apply_eq_correction data).getD i (0, 0) =
      ((data.getD i (0, 0, 0)).1,
        Manual.scale_gain ((data.getD i (0, 0, 0)).2.1 - (data.getD i (0, 0, 0)).2.2)) := by
    rw [List.getD_eq_getElem _ _ hi2, List.getD_eq_getElem _ _ h]
    simp only [hm, List.getElem_map]
  refine ⟨hlen, by rw [hgd]; rfl, ?_, ?_⟩
  · rw [hgd]
    exact le_max_left _ _
  · rw [hgd]
    exact max_le (by norm_num) (min_le_left _ _)

/-- C1 witness: the out-of-range scenario target 40, measured -10 at
index 0. -/
theorem C1_witness :
    (Manual.apply_eq_correction [((20 : ℚ), (40 : ℚ), (-10 : ℚ))]).length =
      [((20 : ℚ), (40 : ℚ), (-10 : ℚ))].length ∧
    (Manual.apply_eq_correction [((20 : ℚ), (40 : ℚ), (-10 : ℚ))]).getD 0 (0, 0) =
      (([((20 : ℚ), (40 : ℚ), (-10 : ℚ))].getD 0 (0, 0, 0)).1,
        max (-32) (min 32 (([((20 : ℚ), (40 : ℚ), (-10 : ℚ))].getD 0 (0, 0, 0)).2.1 -
          ([((20 : ℚ), (40 : ℚ), (-10 : ℚ))].getD 0 (0, 0, 0)).2.2))) ∧
    -32 ≤ ((Manual.apply_eq_correction [((20 : ℚ), (40 : ℚ), (-10 : ℚ))]).getD 0 (0, 0)).2 ∧
    ((Manual.apply_eq_correction [((20 : ℚ), (40 : ℚ), (-10 : ℚ))]).getD 0 (0, 0)).2 ≤ 32 :=
  C1_gain_exact_and_clamped [((20 : ℚ), (40 : ℚ), (-10 : ℚ))] 0 (by decide)

/-- C3: a document with no table makes the run fail with `NoTableFound`; a
document whose first table yields zero surviving rows makes it fail with
`NoValidData`; in both cases no output content is produced. -/
theorem C3_distinct_failures_no_output (doc : Document) :
    (doc.tables = [] →
      Manual.extract_and_clean doc = Except.error ExtractError.NoTableFound ∧
        Manual.run doc = none) ∧
    (∀ t : Table, doc.tables.head? = some t → (Manual.extractRows t).isEmpty = true →
      Manual.extract_and_clean doc = Except.error ExtractError.NoValidData ∧
        Manual.run doc = none) := by
  constructor
  · intro h
    have he : Manual.extract_and_clean doc = Except.error ExtractError.NoTableFound := by
      unfold Manual.extract_and_clean
      rw [h]
      rfl
    exact ⟨he, by unfold Manual.run; rw [he]⟩
  · intro t ht hrows
    have he : Manual.extract_and_clean doc = Except.error ExtractError.NoValidData := by
      unfold Manual.extract_and_clean
      rw [ht]
      simp [hrows]
    exact ⟨he, by unfold Manual.run; rw [he]⟩

/-- C3 witness: a document without tables, and a document whose only table
has a single header row (no `td` cells). -/
theorem C3_witness :
    (Manual.extract_and_clean ⟨[]⟩ = Except.error ExtractError.NoTableFound ∧
      Manual.run ⟨[]⟩ = none) ∧
    (Manual.extract_and_clean ⟨[⟨[⟨[]⟩]⟩]⟩ = Except.error ExtractError.NoValidData ∧
      Manual.run ⟨[⟨[⟨[]⟩]⟩]⟩ = none) :=
  ⟨(C3_distinct_failures_no_output ⟨[]⟩).1 rfl,
    (C3_distinct_failures_no_output ⟨[⟨[⟨[]⟩]⟩]⟩).2 ⟨[⟨[]⟩]⟩ rfl rfl⟩

/-- C5: a table row is emitted if and only if it has at least four cells
and cells 0, 1 and 3 all clean to numbers; cell 2 is ignored (replacing it
never changes the outcome), and a failing row contributes nothing. -/
theorem C5_row_admission (row : Tr) :
    ((Manual.rowParse row).isSome = true ↔
      4 ≤ row.td.length ∧
        (Manual.clean_number (row.td.getD 0 "")).isSome = true ∧
        (Manual.clean_number (row.td.getD 1 "")).isSome = true ∧
        (Manual.clean_number (row.td.getD 3 "")).isSome = true) ∧
    (∀ c : String, Manual.rowParse ⟨row.td.set 2 c⟩ = Manual.rowParse row) ∧
    (∀ t : Table, Manual.extractRows t = t.tr.filterMap Manual.rowParse) := by
  refine ⟨?_, ?_, fun t => rfl⟩
  · unfold Manual.rowParse
    by_cases h4 : 4 ≤ row.td.length
    · simp only [h4, if_true, true_and]
      cases hc0 : Manual.clean_number (row.td.getD 0 "") <;>
        cases hc1 : Manual.clean_number (row.td.getD 1 "") <;>
          cases hc3 : Manual.clean_number (row.td.getD 3 "") <;> simp
    · simp [h4]
  · intro c
    unfold Manual.rowParse
    have hlen : (row.td.set 2 c).length = row.td.length := List.length_set row.td 2 c
    have hg : ∀ i : ℕ, i ≠ 2 → (row.td.set 2 c).getD i "" = row.td.getD i "" := by
      intro i hi
      rw [List.getD_eq_getElem?_getD, List.getD_eq_getElem?_getD,
        List.getElem?_set_ne (fun h => hi h.symm)]
    simp only [hlen, hg 0 (by decide), hg 1 (by decide), hg 3 (by decide)]

/-- C5 witness: the admission criterion evaluated at a concrete
four-cell row with an unparseable (ignored) third cell. -/
theorem C5_witness :
    (Manual.rowParse ⟨["20", "0", "x", "1"]⟩).isSome = true ↔
      4 ≤ (Tr.mk ["20", "0", "x", "1"]).td.length ∧
        (Manual.clean_number ((Tr.mk ["20", "0", "x", "1"]).td.getD 0 "")).isSome = true ∧
        (Manual.clean_number ((Tr.mk ["20", "0", "x", "1"]).td.getD 1 "")).isSome = true ∧
        (Manual.clean_number ((Tr.mk ["20", "0", "x", "1"]).td.getD 3 "")).isSome = true :=
  (C5_row_admission ⟨["20", "0", "x", "1"]⟩).1

end Rtings

namespace Rtings

/-- C6: whenever the pipeline succeeds, the point sequence handed to the
Corrector (and hence serialized) is the frequency-ascending sort of the
surviving rows: adjacent frequencies are non-decreasing, and the result is
a permutation of the corrected unsorted rows — duplicated frequencies are
all retained, nothing is deduplicated. -/
theorem C6_sorted_ascending_duplicates_kept (doc : Document) (t : Table)
    (h1 : doc.tables.head? = some t) (h2 : (Manual.extractRows t).isEmpty = false) :
    Manual.extract_and_clean doc =
      Except.ok (Manual.apply_eq_correction (sortRows (Manual.extractRows t))) ∧
    List.Chain' (fun a b : ℚ × ℚ => a.1 ≤ b.1)
      (Manual.apply_eq_correction (sortRows (Manual.extractRows t))) ∧
    (Manual.apply_eq_correction (sortRows (Manual.extractRows t))).Perm
      (Manual.apply_eq_correction (Manual.extractRows t)) := by
  refine ⟨?_, ?_, ?_⟩
  · unfold Manual.extract_and_clean
    rw [h1]
    simp [h2]
  · have hs : List.Sorted freqLE (sortRows (Manual.extractRows t)) :=
      List.sorted_insertionSort freqLE _
    have hp : List.Pairwise (fun a b : ℚ × ℚ => a.1 ≤ b.1)
        ((sortRows (Manual.extractRows t)).map
          (fun r => (r.1, Manual.scale_gain (r.2.1 - r.2.2)))) :=
      List.Pairwise.map _ (fun _ _ hab => hab) hs
    rw [Manual.apply_eq_correction_eq_map]
    exact hp.chain'
  · rw [Manual.apply_eq_correction_eq_map, Manual.apply_eq_correction_eq_map]
    exact (List.perm_insertionSort freqLE _).map _

/-- C6 witness: a table whose rows carry frequencies 30, 20, 20 — the
duplicate 20 is kept twice. -/
theorem C6_witness :
    Manual.extract_and_clean
        ⟨[⟨[⟨["30", "1", "", "2"]⟩, ⟨["20", "0", "", "1"]⟩, ⟨["20", "3", "", "1"]⟩]⟩]⟩ =
      Except.ok (Manual.apply_eq_correction (sortRows (Manual.extractRows
        ⟨[⟨["30", "1", "", "2"]⟩, ⟨["20", "0", "", "1"]⟩, ⟨["20", "3", "", "1"]⟩]⟩))) ∧
    List.Chain' (fun a b : ℚ × ℚ => a.1 ≤ b.1)
      (Manual.apply_eq_correction (sortRows (Manual.extractRows
        ⟨[⟨["30", "1", "", "2"]⟩, ⟨["20", "0", "", "1"]⟩, ⟨["20", "3", "", "1"]⟩]⟩))) ∧
    (Manual.apply_eq_correction (sortRows (Manual.extractRows
        ⟨[⟨["30", "1", "", "2"]⟩, ⟨["20", "0", "", "1"]⟩, ⟨["20", "3", "", "1"]⟩]⟩))).Perm
      (Manual.apply_eq_correction (Manual.extractRows
        ⟨[⟨["30", "1", "", "2"]⟩, ⟨["20", "0", "", "1"]⟩, ⟨["20", "3", "", "1"]⟩]⟩)) :=
  C6_sorted_ascending_duplicates_kept
    ⟨[⟨[⟨["30", "1", "", "2"]⟩, ⟨["20", "0", "", "1"]⟩, ⟨["20", "3", "", "1"]⟩]⟩]⟩
    ⟨[⟨["30", "1", "", "2"]⟩, ⟨["20", "0", "", "1"]⟩, ⟨["20", "3", "", "1"]⟩]⟩ rfl rfl

/-- C8 counterexample: a table row whose frequency cell reads `"0"` is
emitted with frequency 0, which is not positive — the extractor never
checks `frequency > 0`. -/
theorem C8_counterexample :
    Manual.extractRows ⟨[⟨["0", "1", "x", "2"]⟩]⟩ = [((0 : ℚ), (1 : ℚ), (2 : ℚ))] ∧
    ¬ ((0 : ℚ) > 0) :=
  ⟨by decide, by decide⟩

/-- C8 (amended): every emitted triple comes from a row with at least four
cells whose cells 0, 1 and 3 all cleaned to exactly the emitted numbers;
the frequency is whatever real number cell 0 parses to — positivity
is not enforced. -/
theorem C8_emitted_rows_fully_parsed (t : Table) (i : ℕ)
    (h : i < (Manual.extractRows t).length) :
    ∃ row ∈ t.tr, 4 ≤ row.td.length ∧
      Manual.clean_number (row.td.getD 0 "") =
        some ((Manual.extractRows t).getD i (0, 0, 0)).1 ∧
      Manual.clean_number (row.td.getD 1 "") =
        some ((Manual.extractRows t).getD i (0, 0, 0)).2.1 ∧
      Manual.clean_number (row.td.getD 3 "") =
        some ((Manual.extractRows t).getD i (0, 0, 0)).2.2 := by
  rw [List.getD_eq_getElem _ _ h]
  have hmem : (Manual.extractRows t)[i] ∈ Manual.extractRows t := List.getElem_mem h
  obtain ⟨row, hrow, hp⟩ := List.mem_filterMap.mp hmem
  refine ⟨row, hrow, ?_⟩
  unfold Manual.rowParse at hp
  split at hp
  · split at hp
    · next hc0 hc1 hc3 =>
      obtain heq := Option.some.inj hp
      rw [← heq]
      exact ⟨by assumption, hc0, hc1, hc3⟩
    · exact absurd hp (by simp)
  · exact absurd hp (by simp)

/-- C8 witness: the amended statement at the zero-frequency table. -/
theorem C8_witness :
    ∃ row ∈ (Table.mk [Tr.mk ["0", "1", "x", "2"]]).tr, 4 ≤ row.td.length ∧
      Manual.clean_number (row.td.getD 0 "") =
        some ((Manual.extractRows ⟨[⟨["0", "1", "x", "2"]⟩]⟩).getD 0 (0, 0, 0)).1 ∧
      Manual.clean_number (row.td.getD 1 "") =
        some ((Manual.extractRows ⟨[⟨["0", "1", "x", "2"]⟩]⟩).getD 0 (0, 0, 0)).2.1 ∧
      Manual.clean_number (row.td.getD 3 "") =
        some ((Manual.extractRows ⟨[⟨["0", "1", "x", "2"]⟩]⟩).getD 0 (0, 0, 0)).2.2 :=
  C8_emitted_rows_fully_parsed ⟨[⟨["0", "1", "x", "2"]⟩]⟩ 0 (by decide)

/-- C9: on every document the two scripts compute identical pipelines up
to serialization — extraction, cleaning, filtering, sorting and EQ
correction produce the same ordered (frequency, gain) sequence (or the
same failure); they differ only in how that sequence is rendered. -/
theorem C9_pipelines_agree (doc : Document) :
    Manual.extract_and_clean doc = Auto.extract_and_clean doc := by
  have hap : ∀ l, Manual.apply_eq_correction l = Auto.apply_eq_correction l := by
    intro l
    induction l with
    | nil => rfl
    | cons a rest ih =>
      obtain ⟨f, tg, m⟩ := a
      simp [Manual.apply_eq_correction, Auto.apply_eq_correction,
        Manual.scale_gain, Auto.scale_gain, ih]
  obtain ⟨tables⟩ := doc
  cases tables with
  | nil => rfl
  | cons t rest =>
    rw [show Manual.extract_and_clean ⟨t :: rest⟩ =
          (if (Manual.extractRows t).isEmpty = true then
            Except.error ExtractError.NoValidData
          else Except.ok (Manual.apply_eq_correction (sortRows (Manual.extractRows t))))
        from rfl,
      show Auto.extract_and_clean ⟨t :: rest⟩ =
          (if (Auto.extractRows t).isEmpty = true then
            Except.error ExtractError.NoValidData
          else Except.ok (Auto.apply_eq_correction (sortRows (Auto.extractRows t))))
        from rfl,
      ← extractRows_eq]
    by_cases he : (Manual.extractRows t).isEmpty
    · simp [he]
    · simp [he, hap]

/-- C9 witness at a concrete document. -/
theorem C9_witness :
    Manual.extract_and_clean ⟨[⟨[⟨["20", "0", "", "1"]⟩]⟩]⟩ =
      Auto.extract_and_clean ⟨[⟨[⟨["20", "0", "", "1"]⟩]⟩]⟩ :=
  C9_pipelines_agree ⟨[⟨[⟨["20", "0", "", "1"]⟩]⟩]⟩

end Rtings
